import Mathlib

/-!
# Verification of the cluster lifecycle orchestrator

A shallow embedding, in Lean, of the components of the cluster-api repository
that the specification's claims are about: the generic patch helper
(util/patch/patch.go), the ClusterClass compatibility checker, the
MachineHealthCheck remediation arithmetic, the desired-state apiVersion
alignment, the Cluster infrastructure/control-plane phase reconciliation and
the topology current-state reader.

Pure functions of the source are translated into Lean functions; stateful
reconcile steps become explicit state-passing functions returning the updated
object; fallible code returns `Except` or `Option`.
-/

namespace ClusterAPIProof

/-! ## Patch helper (util/patch/patch.go)

Objects are modelled in their unstructured form as association lists from a
top-level field name ("metadata", "spec", "status", ...) to an abstract content
value (a `Nat` standing for the JSON subtree). Two objects have the same content
at a field iff the values are equal.
-/

/-- Top-level fields of an object in unstructured form. -/
abbrev UnstructuredFields := List (String × Nat)

/-- Content of one top-level field (`none` when the field is absent). -/
def lookupField (o : UnstructuredFields) (k : String) : Option Nat := o.lookup k

/-- Top-level keys appearing in the before or the after object. -/
def topLevelKeys (before after : UnstructuredFields) : List String :=
  ((before.map Prod.fst) ++ (after.map Prod.fst)).dedup

/-- `Helper.calculateChanges`: the top-level fields present in the JSON merge
patch from `before` to `after`, i.e. the fields whose content differs (a field
removed in `after` appears in the merge patch with a null value, so a field
present on only one side is included as well). -/
def calculateChanges (before after : UnstructuredFields) : List String :=
  (topLevelKeys before after).filter
    (fun k => lookupField before k != lookupField after k)

/-- The two patch focus areas of `calculatePatch`/`shouldPatch`. -/
inductive PatchType
  | specPatch
  | statusPatch
deriving DecidableEq, Repr

/-- `Helper.shouldPatch`: for the spec focus, patch iff the change set minus
"status" is non-empty; for the status focus, patch iff "status" changed. -/
def shouldPatch (changes : List String) : PatchType → Bool
  | .specPatch => !(changes.filter (fun k => k != "status")).isEmpty
  | .statusPatch => changes.contains "status"

/-- A condition list: condition type → abstract condition content. -/
abbrev Conditions := List (String × Nat)

/-- The condition types appearing in a condition list. -/
def conditionTypes (c : Conditions) : List String := (c.map Prod.fst).dedup

/-- The diff computed by `conditions.NewPatch` between the before and after
condition lists: conditions added, changed and removed. -/
structure ConditionsDiff where
  added : List String
  changed : List String
  removed : List String
deriving DecidableEq, Repr

/-- `conditions.NewPatch before after`. -/
def conditionsNewPatch (before after : Conditions) : ConditionsDiff :=
  { added := (conditionTypes after).filter (fun t => (before.lookup t).isNone)
  , changed := (conditionTypes after).filter (fun t =>
      match before.lookup t, after.lookup t with
      | some b, some a => b != a
      | _, _ => false)
  , removed := (conditionTypes before).filter (fun t => (after.lookup t).isNone) }

/-- `Patch.IsZero`: no added, changed or removed conditions. -/
def ConditionsDiff.isZero (d : ConditionsDiff) : Bool :=
  d.added.isEmpty && d.changed.isEmpty && d.removed.isEmpty

/-- The parts of a client object `Helper.Patch` looks at: its unstructured
top-level fields, its condition list (which in the serialized object lives
under "status"), its deletionTimestamp and its finalizers. -/
structure PatchObj where
  fields : UnstructuredFields
  conditions : Conditions
  deletionTimestampIsZero : Bool
  finalizers : List String
deriving DecidableEq, Repr

/-- The write operations `Helper.Patch` can issue against the API server. -/
inductive WriteOp
  | conditionsWrite
  | specWrite
  | statusWrite
deriving DecidableEq, Repr

/-- The sequence of write operations issued by `Helper.Patch`: first the
conditions patch (only when the object implements a conditions interface and
the conditions diff is non-zero), then the metadata/spec patch gated by
`shouldPatch specPatch`, then the status patch gated by
`shouldPatch statusPatch`. -/
def patchWrites (hasConditionsCapability : Bool) (before after : PatchObj) :
    List WriteOp :=
  let changes := calculateChanges before.fields after.fields
  (if hasConditionsCapability &&
      !(conditionsNewPatch before.conditions after.conditions).isZero
   then [WriteOp.conditionsWrite] else []) ++
  (if shouldPatch changes .specPatch then [WriteOp.specWrite] else []) ++
  (if shouldPatch changes .statusPatch then [WriteOp.statusWrite] else [])

/-- An error returned by one of the sub-patches; the only property `Patch`
inspects is whether `apierrors.IsNotFound` holds of it. -/
structure PatchError where
  isNotFound : Bool
deriving DecidableEq, Repr

/-- The error aggregation at the end of `Helper.Patch`: the conditions-patch
and spec-patch errors are always collected; the status-patch error is dropped
exactly when it is a NotFound error, the object is being deleted
(non-zero deletionTimestamp) and the object has no finalizers left. -/
def patchAggregateErrs (after : PatchObj)
    (condErr specErr statusErr : Option PatchError) : List PatchError :=
  (condErr.toList ++ specErr.toList) ++
  (match statusErr with
   | none => []
   | some e =>
     if !(e.isNotFound && !after.deletionTimestampIsZero &&
          after.finalizers.isEmpty)
     then [e]
     else [])

/-! ### Lemmas about the patch helper -/

theorem lookup_eq_none_of_not_mem_fst {l : List (String × Nat)} {k : String}
    (h : k ∉ l.map Prod.fst) : l.lookup k = none := by
  induction l with
  | nil => rfl
  | cons p t ih =>
    obtain ⟨a, b⟩ := p
    simp only [List.map_cons, List.mem_cons] at h
    push_neg at h
    have hbeq : (k == a) = false := by simpa using h.1
    simp only [List.lookup, hbeq]
    exact ih h.2

theorem lookup_isSome_of_mem_fst {l : List (String × Nat)} {k : String}
    (h : k ∈ l.map Prod.fst) : (l.lookup k).isSome := by
  induction l with
  | nil => simp at h
  | cons p t ih =>
    obtain ⟨a, b⟩ := p
    simp only [List.map_cons, List.mem_cons] at h
    by_cases hk : k = a
    · simp [List.lookup, hk]
    · have hbeq : (k == a) = false := by simpa using hk
      simp only [List.lookup, hbeq]
      exact ih (h.resolve_left hk)

theorem mem_topLevelKeys_of_lookup_ne {before after : UnstructuredFields}
    {k : String} (h : lookupField before k ≠ lookupField after k) :
    k ∈ topLevelKeys before after := by
  rw [topLevelKeys, List.mem_dedup, List.mem_append]
  by_contra hc
  push_neg at hc
  rw [lookupField, lookupField, lookup_eq_none_of_not_mem_fst hc.1,
    lookup_eq_none_of_not_mem_fst hc.2] at h
  exact h rfl

theorem mem_calculateChanges_iff {before after : UnstructuredFields}
    {k : String} :
    k ∈ calculateChanges before after ↔
      lookupField before k ≠ lookupField after k := by
  constructor
  · intro h
    rw [calculateChanges, List.mem_filter] at h
    simpa using h.2
  · intro h
    rw [calculateChanges, List.mem_filter]
    exact ⟨mem_topLevelKeys_of_lookup_ne h, by simpa using h⟩

theorem calculateChanges_self (o : UnstructuredFields) :
    calculateChanges o o = [] := by
  rw [calculateChanges, List.filter_eq_nil_iff]
  intro k _
  simp

theorem conditionsNewPatch_self_isZero (c : Conditions) :
    (conditionsNewPatch c c).isZero = true := by
  rw [conditionsNewPatch, ConditionsDiff.isZero]
  simp only [Bool.and_eq_true, List.isEmpty_iff]
  refine ⟨⟨List.filter_eq_nil_iff.2 ?_, List.filter_eq_nil_iff.2 ?_⟩,
    List.filter_eq_nil_iff.2 ?_⟩
  · intro t ht
    rw [conditionTypes, List.mem_dedup] at ht
    have := lookup_isSome_of_mem_fst ht
    simp [Option.isNone, Option.isSome] at this ⊢
    cases hl : c.lookup t with
    | none => rw [hl] at this; simp at this
    | some v => simp
  · intro t _
    cases hl : c.lookup t with
    | none => simp
    | some v => simp
  · intro t ht
    rw [conditionTypes, List.mem_dedup] at ht
    have := lookup_isSome_of_mem_fst ht
    cases hl : c.lookup t with
    | none => rw [hl] at this; simp at this
    | some v => simp

theorem specWrite_mem_patchWrites_iff (hasConds : Bool) (before after : PatchObj) :
    WriteOp.specWrite ∈ patchWrites hasConds before after ↔
      shouldPatch (calculateChanges before.fields after.fields) .specPatch = true := by
  rw [patchWrites]
  simp only [List.mem_append]
  constructor
  · rintro ((h | h) | h)
    · split at h <;> simp_all
    · split at h
      · assumption
      · simp at h
    · split at h <;> simp_all
  · intro h
    rw [if_pos h]
    simp

theorem statusWrite_mem_patchWrites_iff (hasConds : Bool) (before after : PatchObj) :
    WriteOp.statusWrite ∈ patchWrites hasConds before after ↔
      shouldPatch (calculateChanges before.fields after.fields) .statusPatch = true := by
  rw [patchWrites]
  simp only [List.mem_append]
  constructor
  · rintro ((h | h) | h)
    · split at h <;> simp_all
    · split at h <;> simp_all
    · split at h
      · assumption
      · simp at h
  · intro h
    rw [if_pos h]
    simp

theorem shouldPatch_spec_iff (changes : List String) :
    shouldPatch changes .specPatch = true ↔
      ∃ k ∈ changes, k ≠ "status" := by
  have hiff : (!(changes.filter (fun k => k != "status")).isEmpty) = true ↔
      changes.filter (fun k => k != "status") ≠ [] := by
    simp [List.isEmpty_iff]
  rw [shouldPatch, hiff]
  constructor
  · intro h
    rcases List.exists_mem_of_ne_nil _ h with ⟨k, hk⟩
    rw [List.mem_filter] at hk
    exact ⟨k, hk.1, by simpa using hk.2⟩
  · rintro ⟨k, hk, hne⟩ hc
    have hm : k ∈ changes.filter (fun k => k != "status") :=
      List.mem_filter.2 ⟨hk, by simpa using hne⟩
    rw [hc] at hm
    simp at hm

/-! ### Claim C9 and C10 theorems -/

/-- C9: `Helper.Patch` issues the metadata/spec patch iff some top-level field
other than "status" changed between the before snapshot and the mutated
object, issues the status patch iff the "status" top-level field changed, and
issues zero write operations when the object is unchanged. -/
theorem patch_writes_only_changed_subresources
    (hasConds : Bool) (before after : PatchObj) :
    ((WriteOp.specWrite ∈ patchWrites hasConds before after) ↔
      ∃ k, k ≠ "status" ∧
        lookupField before.fields k ≠ lookupField after.fields k) ∧
    ((WriteOp.statusWrite ∈ patchWrites hasConds before after) ↔
      lookupField before.fields "status" ≠ lookupField after.fields "status") ∧
    (before = after → patchWrites hasConds before after = []) := by
  refine ⟨?_, ?_, ?_⟩
  · rw [specWrite_mem_patchWrites_iff, shouldPatch_spec_iff]
    constructor
    · rintro ⟨k, hk, hne⟩
      exact ⟨k, hne, mem_calculateChanges_iff.1 hk⟩
    · rintro ⟨k, hne, hdiff⟩
      exact ⟨k, mem_calculateChanges_iff.2 hdiff, hne⟩
  · rw [statusWrite_mem_patchWrites_iff]
    have hmem : shouldPatch (calculateChanges before.fields after.fields)
        .statusPatch = true ↔
        "status" ∈ calculateChanges before.fields after.fields := by
      simp [shouldPatch]
    rw [hmem, mem_calculateChanges_iff]
  · rintro rfl
    rw [patchWrites]
    simp [calculateChanges_self, conditionsNewPatch_self_isZero, shouldPatch]

/-- Witness for C9: patching an unchanged object issues no writes. -/
theorem patch_writes_only_changed_subresources_witness :
    patchWrites true ⟨[("spec", 1), ("status", 2)], [("Ready", 1)], true, []⟩
        ⟨[("spec", 1), ("status", 2)], [("Ready", 1)], true, []⟩ = [] :=
  (patch_writes_only_changed_subresources true
    ⟨[("spec", 1), ("status", 2)], [("Ready", 1)], true, []⟩
    ⟨[("spec", 1), ("status", 2)], [("Ready", 1)], true, []⟩).2.2 rfl

/-- C10: inside `Helper.Patch` the status-subresource patch error is swallowed
(the aggregated error is as if the status patch succeeded) iff the error is a
NotFound error, the object has a non-zero deletionTimestamp and its finalizer
list is empty; in every other situation it is part of the aggregate. -/
theorem patch_status_notFound_error_swallowed_iff (after : PatchObj)
    (condErr specErr : Option PatchError) (e : PatchError) :
    (patchAggregateErrs after condErr specErr (some e) =
        patchAggregateErrs after condErr specErr none) ↔
      (e.isNotFound = true ∧ after.deletionTimestampIsZero = false ∧
        after.finalizers = []) := by
  have hcond : (e.isNotFound && !after.deletionTimestampIsZero &&
      after.finalizers.isEmpty) = true ↔
      (e.isNotFound = true ∧ after.deletionTimestampIsZero = false ∧
        after.finalizers = []) := by
    simp [Bool.and_eq_true, Bool.not_eq_true', List.isEmpty_iff, and_assoc]
  rw [← hcond]
  by_cases h : (e.isNotFound && !after.deletionTimestampIsZero &&
      after.finalizers.isEmpty) = true
  · simp [patchAggregateErrs, h]
  · simp [patchAggregateErrs, h]

/-! ## ClusterClass compatibility checker

The `check` package's implementation is not part of this source tree (only its
tests are), so the definitions below are modelled from the specification
(§4.5, Compatibility Checker), with every behavioral choice cross-checked
against the expected outputs pinned in the package's tests
(TestObjectsAreCompatible, TestObjectsAreStrictlyCompatible,
TestClusterClassTemplateAreCompatible, TestMachineDeploymentClassesAreCompatible,
TestMachinePoolClassesAreCompatible, TestClusterClassesAreCompatible,
TestClusterClassValidationWithClusterAwareChecks).
-/

/-- Discriminator between MachineDeployment and MachinePool worker classes. -/
inductive WorkerKind
  | machineDeployment
  | machinePool
deriving DecidableEq, Repr, Fintype

/-- A structured embedding of the `field.Error` values the compatibility
checker produces; `classRemovedInUse` carries the offending class name and the
name of the Cluster still using it, mirroring the message
`"MachineDeploymentClass ... is in use by Cluster ..."`. -/
inductive CheckError
  | groupChanged (path : String)
  | kindChanged (path : String)
  | namespaceChanged (path : String)
  | nameChanged (path : String)
  | classRemovedInUse (kind : WorkerKind) (cls clusterName : String)
deriving DecidableEq, Repr

/-- The slice of an unstructured template object the compatibility checker
reads: group and kind (from apiVersion/kind), namespace and name. -/
structure UnstructuredRef where
  group : String
  version : String
  kind : String
  ns : String
  name : String
deriving DecidableEq, Repr

/-- Modelled from the spec: `ObjectsAreInTheSameNamespace` — the namespaces of
the current and desired object must match. -/
def ObjectsAreInTheSameNamespace (current desired : UnstructuredRef) :
    List CheckError :=
  if current.ns ≠ desired.ns then [CheckError.namespaceChanged "metadata.namespace"]
  else []

/-- Modelled from the spec (§4.5): `ObjectsAreCompatible` — two referenced
template objects are compatible iff group and kind match exactly and they live
in the same namespace; the apiVersion's version component and the name may
differ freely. -/
def ObjectsAreCompatible (current desired : UnstructuredRef) : List CheckError :=
  (if current.group ≠ desired.group then [CheckError.groupChanged "apiVersion"]
   else []) ++
  (if current.kind ≠ desired.kind then [CheckError.kindChanged "kind"] else []) ++
  ObjectsAreInTheSameNamespace current desired

/-- Modelled from the spec (§4.5): `ObjectsAreStrictlyCompatible` — like
`ObjectsAreCompatible` but the name must not change either. -/
def ObjectsAreStrictlyCompatible (current desired : UnstructuredRef) :
    List CheckError :=
  (if current.name ≠ desired.name then [CheckError.nameChanged "metadata.name"]
   else []) ++
  ObjectsAreCompatible current desired

/-- A ClusterClass template reference: apiVersion string, kind, name
(references of this form carry no namespace). -/
structure ClusterClassTemplateReference where
  apiVersion : String
  kind : String
  name : String
deriving DecidableEq, Repr

/-- Group component of an apiVersion string "group/version" (empty for a
core-group apiVersion carrying no slash): the characters before the first
slash. -/
def groupOfAPIVersion (apiVersion : String) : String :=
  if apiVersion.data.contains '/' then
    ⟨apiVersion.data.takeWhile (fun c => c ≠ '/')⟩
  else ""

/-- Modelled from the spec (§4.5): `ClusterClassTemplateAreCompatible` — a
template reference change is compatible iff the apiVersion group and the kind
are unchanged; the version component and the name may change freely. -/
def ClusterClassTemplateAreCompatible
    (current desired : ClusterClassTemplateReference) (path : String) :
    List CheckError :=
  (if groupOfAPIVersion current.apiVersion ≠ groupOfAPIVersion desired.apiVersion
   then [CheckError.groupChanged path] else []) ++
  (if current.kind ≠ desired.kind then [CheckError.kindChanged path] else [])

/-- A MachineDeploymentClass or MachinePoolClass: the class name plus its
bootstrap-template and infrastructure-template references. -/
structure WorkerClass where
  cls : String
  bootstrapTemplateRef : ClusterClassTemplateReference
  infrastructureTemplateRef : ClusterClassTemplateReference
deriving DecidableEq, Repr

/-- The parts of a ClusterClass the compatibility checks read. -/
structure ClusterClass where
  name : String
  infrastructureClusterTemplateRef : ClusterClassTemplateReference
  controlPlaneTemplateRef : ClusterClassTemplateReference
  controlPlaneInfrastructureMachineTemplateRef :
    Option ClusterClassTemplateReference
  machineDeploymentClasses : List WorkerClass
  machinePoolClasses : List WorkerClass
deriving DecidableEq, Repr

/-- The worker classes of one kind. -/
def ClusterClass.classesOf (cc : ClusterClass) : WorkerKind → List WorkerClass
  | .machineDeployment => cc.machineDeploymentClasses
  | .machinePool => cc.machinePoolClasses

/-- Modelled from the spec (§4.5), with the per-class reference check as
pinned by TestMachineDeploymentClassesAreCompatible and
TestMachinePoolClassesAreCompatible (a desired class whose infrastructure
reference changes kind errors, while one whose bootstrap reference changes
kind passes): for every worker class present in both the current and desired
ClusterClass, the class's infrastructure template reference must change
compatibly; the bootstrap template reference may change freely. -/
def WorkerClassesAreCompatible (currentClasses desiredClasses : List WorkerClass)
    (path : String) : List CheckError :=
  desiredClasses.flatMap (fun dc =>
    currentClasses.flatMap (fun cc =>
      if cc.cls = dc.cls then
        ClusterClassTemplateAreCompatible cc.infrastructureTemplateRef
          dc.infrastructureTemplateRef path
      else []))

/-- Modelled from the spec (§4.5): `ClusterClassesAreCompatible` — the
infrastructure-cluster, control-plane and control-plane machine-infrastructure
template references must change compatibly, and worker classes present in both
versions must change compatibly; a removed class produces no error here (the
in-use check is a separate, cluster-aware step). -/
def ClusterClassesAreCompatible (current desired : ClusterClass) :
    List CheckError :=
  ClusterClassTemplateAreCompatible current.infrastructureClusterTemplateRef
      desired.infrastructureClusterTemplateRef "spec.infrastructure" ++
  ClusterClassTemplateAreCompatible current.controlPlaneTemplateRef
      desired.controlPlaneTemplateRef "spec.controlPlane" ++
  (match current.controlPlaneInfrastructureMachineTemplateRef,
      desired.controlPlaneInfrastructureMachineTemplateRef with
   | some c, some d =>
     ClusterClassTemplateAreCompatible c d "spec.controlPlane.machineInfrastructure"
   | _, _ => []) ++
  WorkerClassesAreCompatible current.machineDeploymentClasses
      desired.machineDeploymentClasses "spec.workers.machineDeployments" ++
  WorkerClassesAreCompatible current.machinePoolClasses
      desired.machinePoolClasses "spec.workers.machinePools"

/-- A worker topology entry inside Cluster.spec.topology.workers: the unique
topology name and the worker class it instantiates. -/
structure MachineDeploymentTopology where
  name : String
  cls : String
deriving DecidableEq, Repr

/-- The parts of Cluster.spec.topology the cluster-aware checks read. -/
structure ClusterTopology where
  classRef : String
  machineDeployments : List MachineDeploymentTopology
  machinePools : List MachineDeploymentTopology
deriving DecidableEq, Repr

/-- The parts of a live Cluster the cluster-aware checks read. -/
structure Cluster where
  name : String
  topology : Option ClusterTopology
deriving DecidableEq, Repr

/-- The worker topology entries of one kind on a Cluster (empty when the
Cluster has no topology). -/
def topologiesOf (kind : WorkerKind) (c : Cluster) :
    List MachineDeploymentTopology :=
  match c.topology with
  | none => []
  | some t =>
    match kind with
    | .machineDeployment => t.machineDeployments
    | .machinePool => t.machinePools

/-- Modelled from the spec: the webhook's `getClustersUsingClusterClass`,
returning the live Clusters whose topology references the ClusterClass by
name. -/
def getClustersUsingClusterClass (clusters : List Cluster) (cc : ClusterClass) :
    List Cluster :=
  clusters.filter (fun c =>
    match c.topology with
    | some t => t.classRef == cc.name
    | none => false)

/-- The class names of a worker class list. -/
def workerClassNames (classes : List WorkerClass) : List String :=
  classes.map (·.cls)

/-- Modelled from the spec (§4.5): the worker class names removed by the
update (present in the old ClusterClass, absent from the new one). -/
def removedWorkerClasses (oldClasses newClasses : List WorkerClass) :
    List String :=
  (workerClassNames oldClasses).filter
    (fun c => !(workerClassNames newClasses).contains c)

/-- Modelled from the spec (§4.5 and the §8 scenario): removing a worker class
while at least one live Cluster's topology still references it by class name
is rejected with an error identifying the in-use class and the Cluster. -/
def validateRemovedWorkerClassesNotUsed (kind : WorkerKind)
    (clustersInUse : List Cluster) (removed : List String) : List CheckError :=
  clustersInUse.flatMap (fun c =>
    (topologiesOf kind c).flatMap (fun t =>
      if removed.contains t.cls then
        [CheckError.classRemovedInUse kind t.cls c.name]
      else []))

/-- Modelled from the spec: the cluster-aware part of the ClusterClass update
webhook's `validate` — template-reference compatibility plus rejection of
in-use worker-class removals. (The real webhook additionally performs
standalone validation of the new ClusterClass — unique class names, template
validity, health-check and autoscaler rules — which is independent of the
old/new pair and not modelled here.) -/
def validateClusterClassUpdate (clusters : List Cluster)
    (oldClusterClass newClusterClass : ClusterClass) : List CheckError :=
  ClusterClassesAreCompatible oldClusterClass newClusterClass ++
  validateRemovedWorkerClassesNotUsed .machineDeployment
    (getClustersUsingClusterClass clusters oldClusterClass)
    (removedWorkerClasses oldClusterClass.machineDeploymentClasses
      newClusterClass.machineDeploymentClasses) ++
  validateRemovedWorkerClassesNotUsed .machinePool
    (getClustersUsingClusterClass clusters oldClusterClass)
    (removedWorkerClasses oldClusterClass.machinePoolClasses
      newClusterClass.machinePoolClasses)

/-- Replace every worker class's bootstrap template reference, keeping the
class name and the infrastructure reference; used to state that the update
validation does not depend on bootstrap references at all. -/
def mapBootstrapRefs (f : String → ClusterClassTemplateReference)
    (cc : ClusterClass) : ClusterClass :=
  { cc with
    machineDeploymentClasses := cc.machineDeploymentClasses.map
      (fun wc => { wc with bootstrapTemplateRef := f wc.cls })
    machinePoolClasses := cc.machinePoolClasses.map
      (fun wc => { wc with bootstrapTemplateRef := f wc.cls }) }

/-! ### Lemmas about the compatibility checker -/

theorem mem_removedWorkerClasses {oldClasses newClasses : List WorkerClass}
    {c : String} :
    c ∈ removedWorkerClasses oldClasses newClasses ↔
      c ∈ workerClassNames oldClasses ∧ c ∉ workerClassNames newClasses := by
  rw [removedWorkerClasses, List.mem_filter]
  simp [List.elem_iff]

theorem mem_validateRemovedWorkerClassesNotUsed {kind : WorkerKind}
    {clustersInUse : List Cluster} {removed : List String} {c : Cluster}
    {t : MachineDeploymentTopology} (hc : c ∈ clustersInUse)
    (ht : t ∈ topologiesOf kind c) (hr : t.cls ∈ removed) :
    CheckError.classRemovedInUse kind t.cls c.name ∈
      validateRemovedWorkerClassesNotUsed kind clustersInUse removed := by
  rw [validateRemovedWorkerClassesNotUsed, List.mem_flatMap]
  refine ⟨c, hc, ?_⟩
  rw [List.mem_flatMap]
  refine ⟨t, ht, ?_⟩
  rw [if_pos (List.elem_iff.2 hr)]
  simp

theorem validateRemovedWorkerClassesNotUsed_eq_nil {kind : WorkerKind}
    {clustersInUse : List Cluster} {removed : List String}
    (h : ∀ c ∈ clustersInUse, ∀ t ∈ topologiesOf kind c, t.cls ∉ removed) :
    validateRemovedWorkerClassesNotUsed kind clustersInUse removed = [] := by
  rw [validateRemovedWorkerClassesNotUsed, List.flatMap_eq_nil_iff]
  intro c hc
  rw [List.flatMap_eq_nil_iff]
  intro t ht
  rw [if_neg (fun hcontains => (h c hc t ht) (List.elem_iff.1 hcontains))]

theorem workerClassNames_mapBootstrap
    (f : String → ClusterClassTemplateReference) (classes : List WorkerClass) :
    workerClassNames (classes.map
        (fun wc => { wc with bootstrapTemplateRef := f wc.cls })) =
      workerClassNames classes := by
  rw [workerClassNames, workerClassNames, List.map_map]
  rfl

theorem WorkerClassesAreCompatible_mapBootstrap
    (currentClasses desiredClasses : List WorkerClass)
    (f : String → ClusterClassTemplateReference) (path : String) :
    WorkerClassesAreCompatible currentClasses
        (desiredClasses.map
          (fun wc => { wc with bootstrapTemplateRef := f wc.cls })) path =
      WorkerClassesAreCompatible currentClasses desiredClasses path := by
  induction desiredClasses with
  | nil => rfl
  | cons d rest ih =>
    simp only [WorkerClassesAreCompatible, List.map_cons, List.flatMap_cons]
      at ih ⊢
    rw [ih]

/-! ### Claim C3 theorem -/

/-- C3: a pair of current/desired template references is compatible (no
errors) iff group and kind match exactly (so a trailing "Template" suffix
difference in kind is an incompatibility) and, for full objects, the
namespace matches; the version component and the name do not occur in the
conditions, so they may differ freely — except under strict compatibility,
where a name change is additionally an error. -/
theorem template_compatibility_iff (current desired : UnstructuredRef)
    (curRef desRef : ClusterClassTemplateReference) (path : String) :
    (ObjectsAreCompatible current desired = [] ↔
      current.group = desired.group ∧ current.kind = desired.kind ∧
        current.ns = desired.ns) ∧
    (ObjectsAreStrictlyCompatible current desired = [] ↔
      current.group = desired.group ∧ current.kind = desired.kind ∧
        current.ns = desired.ns ∧ current.name = desired.name) ∧
    (ClusterClassTemplateAreCompatible curRef desRef path = [] ↔
      groupOfAPIVersion curRef.apiVersion = groupOfAPIVersion desRef.apiVersion ∧
        curRef.kind = desRef.kind) := by
  refine ⟨?_, ?_, ?_⟩
  · rw [ObjectsAreCompatible, ObjectsAreInTheSameNamespace]
    split_ifs <;> simp_all
  · rw [ObjectsAreStrictlyCompatible, ObjectsAreCompatible,
      ObjectsAreInTheSameNamespace]
    split_ifs <;> simp_all
  · rw [ClusterClassTemplateAreCompatible]
    split_ifs <;> simp_all

/-! ### Claim C2 theorems -/

/-- C2 (amended): (a) removing a MachineDeploymentClass or MachinePoolClass
from a ClusterClass while at least one live Cluster using the class's
ClusterClass still references it by class name yields a validation error
identifying the in-use class (and the Cluster using it); (b) when the
template references change compatibly and no removed class is in use, the
update is accepted; (c) the validation result does not depend on the bootstrap
template references of the new ClusterClass's worker classes at all, so a
class still present may change its bootstrap reference incompatibly without
error (its infrastructure reference, by contrast, is checked — see the
counterexample). -/
theorem clusterclass_update_validation :
    (∀ (clusters : List Cluster) (oldCC newCC : ClusterClass)
        (kind : WorkerKind) (c : Cluster) (t : MachineDeploymentTopology)
        (ct : ClusterTopology),
      c ∈ clusters → c.topology = some ct → ct.classRef = oldCC.name →
      t ∈ topologiesOf kind c →
      t.cls ∈ workerClassNames (oldCC.classesOf kind) →
      t.cls ∉ workerClassNames (newCC.classesOf kind) →
      CheckError.classRemovedInUse kind t.cls c.name ∈
        validateClusterClassUpdate clusters oldCC newCC) ∧
    (∀ (clusters : List Cluster) (oldCC newCC : ClusterClass),
      ClusterClassesAreCompatible oldCC newCC = [] →
      (∀ (kind : WorkerKind), ∀ c ∈ getClustersUsingClusterClass clusters oldCC,
        ∀ t ∈ topologiesOf kind c,
          t.cls ∉ removedWorkerClasses (oldCC.classesOf kind)
            (newCC.classesOf kind)) →
      validateClusterClassUpdate clusters oldCC newCC = []) ∧
    (∀ (clusters : List Cluster) (oldCC newCC : ClusterClass)
        (f : String → ClusterClassTemplateReference),
      validateClusterClassUpdate clusters oldCC (mapBootstrapRefs f newCC) =
        validateClusterClassUpdate clusters oldCC newCC) := by
  refine ⟨?_, ?_, ?_⟩
  · intro clusters oldCC newCC kind c t ct hc htop hcls ht hmemOld hmemNew
    have hcUsing : c ∈ getClustersUsingClusterClass clusters oldCC := by
      rw [getClustersUsingClusterClass, List.mem_filter]
      refine ⟨hc, ?_⟩
      rw [htop]
      simpa using hcls
    have hremoved : t.cls ∈ removedWorkerClasses (oldCC.classesOf kind)
        (newCC.classesOf kind) :=
      mem_removedWorkerClasses.2 ⟨hmemOld, hmemNew⟩
    rw [validateClusterClassUpdate]
    simp only [List.mem_append]
    cases kind with
    | machineDeployment =>
      exact Or.inl (Or.inr
        (mem_validateRemovedWorkerClassesNotUsed hcUsing ht hremoved))
    | machinePool =>
      exact Or.inr
        (mem_validateRemovedWorkerClassesNotUsed hcUsing ht hremoved)
  · intro clusters oldCC newCC hcompat hnouse
    have h1 := validateRemovedWorkerClassesNotUsed_eq_nil
      (hnouse WorkerKind.machineDeployment)
    have h2 := validateRemovedWorkerClassesNotUsed_eq_nil
      (hnouse WorkerKind.machinePool)
    simp only [ClusterClass.classesOf] at h1 h2
    rw [validateClusterClassUpdate, hcompat, h1, h2]
    rfl
  · intro clusters oldCC newCC f
    rw [validateClusterClassUpdate, validateClusterClassUpdate]
    rw [mapBootstrapRefs]
    rw [ClusterClassesAreCompatible, ClusterClassesAreCompatible]
    rw [WorkerClassesAreCompatible_mapBootstrap,
      WorkerClassesAreCompatible_mapBootstrap]
    rw [removedWorkerClasses, removedWorkerClasses, removedWorkerClasses,
      removedWorkerClasses, workerClassNames_mapBootstrap,
      workerClassNames_mapBootstrap]

/-- Template reference used by the concrete ClusterClass scenarios. -/
def cexRef : ClusterClassTemplateReference :=
  ⟨"group.test.io/foo", "barTemplate", "baz"⟩

/-- Like `cexRef` but with a different kind: an incompatible change. -/
def cexIncompatibleRef : ClusterClassTemplateReference :=
  ⟨"group.test.io/foo", "another-barTemplate", "baz"⟩

/-- A live Cluster whose topology references ClusterClass "class1" and has one
MachineDeployment topology "workers1" instantiating worker class "bb". -/
def cexCluster : Cluster :=
  ⟨"cluster1", some ⟨"class1", [⟨"workers1", "bb"⟩], []⟩⟩

/-- The old ClusterClass: worker classes "aa" and "bb". -/
def cexOldCC : ClusterClass :=
  { name := "class1"
  , infrastructureClusterTemplateRef := cexRef
  , controlPlaneTemplateRef := cexRef
  , controlPlaneInfrastructureMachineTemplateRef := some cexRef
  , machineDeploymentClasses := [⟨"aa", cexRef, cexRef⟩, ⟨"bb", cexRef, cexRef⟩]
  , machinePoolClasses := [] }

/-- A new ClusterClass removing the in-use class "bb". -/
def cexNewCCRemoveBB : ClusterClass :=
  { cexOldCC with machineDeploymentClasses := [⟨"aa", cexRef, cexRef⟩] }

/-- A new ClusterClass removing the unused class "aa" and swapping the
bootstrap reference of the surviving class "bb" to an incompatible kind. -/
def cexNewCCKeepBB : ClusterClass :=
  { cexOldCC with
    machineDeploymentClasses := [⟨"bb", cexIncompatibleRef, cexRef⟩] }

/-- C2 counterexample: with no live Clusters at all, an update in which worker
class "aa" stays present in the new ClusterClass but changes the kind of its
infrastructure template reference ("barTemplate" → "another-barTemplate") is
rejected — contradicting the claim that a class remaining present may change
its bootstrap/infra template references incompatibly (different kind) without
error. -/
theorem clusterclass_infraSwap_rejected_counterexample :
    validateClusterClassUpdate []
      { name := "class1"
      , infrastructureClusterTemplateRef := cexRef
      , controlPlaneTemplateRef := cexRef
      , controlPlaneInfrastructureMachineTemplateRef := some cexRef
      , machineDeploymentClasses := [⟨"aa", cexRef, cexRef⟩]
      , machinePoolClasses := [] }
      { name := "class1"
      , infrastructureClusterTemplateRef := cexRef
      , controlPlaneTemplateRef := cexRef
      , controlPlaneInfrastructureMachineTemplateRef := some cexRef
      , machineDeploymentClasses := [⟨"aa", cexRef, cexIncompatibleRef⟩]
      , machinePoolClasses := [] }
      ≠ [] := by decide

/-- Witness for C2 at the test scenario: removing the in-use class "bb" while
cluster1's topology still references it yields the error identifying class
"bb" and cluster1; removing only the unused class "aa" (while the surviving
class "bb" swaps its bootstrap reference to an incompatible kind) is
accepted. -/
theorem clusterclass_update_validation_witness :
    (CheckError.classRemovedInUse .machineDeployment "bb" "cluster1" ∈
      validateClusterClassUpdate [cexCluster] cexOldCC cexNewCCRemoveBB) ∧
    validateClusterClassUpdate [cexCluster] cexOldCC cexNewCCKeepBB = [] :=
  ⟨clusterclass_update_validation.1 [cexCluster] cexOldCC cexNewCCRemoveBB
      .machineDeployment cexCluster ⟨"workers1", "bb"⟩
      ⟨"class1", [⟨"workers1", "bb"⟩], []⟩
      (by decide) (by decide) (by decide) (by decide) (by decide) (by decide),
    clusterclass_update_validation.2.1 [cexCluster] cexOldCC cexNewCCKeepBB
      (by decide) (by decide)⟩

/-! ## MachineHealthCheck remediation arithmetic

The controller's `getMaxUnhealthy`/`isAllowedRemediation` implementation is
not part of this source tree (only its tests are); the definitions below are
modelled from the specification (§8 scenario) with behavior cross-checked
against TestGetMaxUnhealthy and TestIsAllowedRemediation. String scanning is
done at the character level so all definitions evaluate in the kernel; the
float64 floor computation in `intstr.GetScaledValueFromIntOrPercent` is exact
on the int32 ranges involved and is modelled as exact integer floor
division. -/

/-- Kubernetes `intstr.IntOrString`. -/
inductive IntOrString
  | intVal (n : Int)
  | strVal (s : String)
deriving DecidableEq, Repr

/-- Accumulating decimal-digit parser over characters. -/
def parseNatDigitsAux : List Char → Nat → Option Nat
  | [], acc => some acc
  | c :: cs, acc =>
    if c.isDigit then parseNatDigitsAux cs (10 * acc + (c.toNat - 48))
    else none

/-- Parse a non-empty decimal digit string. -/
def parseNatDigits (cs : List Char) : Option Nat :=
  if cs.isEmpty then none else parseNatDigitsAux cs 0

/-- Go's `strconv.Atoi` restricted to the shapes that occur here: an optional
sign followed by decimal digits. -/
def atoi (s : String) : Option Int :=
  match s.data with
  | '-' :: cs => (parseNatDigits cs).map (fun n => -(n : Int))
  | '+' :: cs => (parseNatDigits cs).map (fun n => (n : Int))
  | cs => (parseNatDigits cs).map (fun n => (n : Int))

/-- `intstr.getIntOrPercentValueSafely`: an int is returned as-is; a string
must end in "%" and parse as an integer percentage, anything else is an
error. -/
def getIntOrPercentValueSafely : IntOrString → Except String (Int × Bool)
  | .intVal n => .ok (n, false)
  | .strVal s =>
    match s.data.getLast? with
    | some '%' =>
      match atoi ⟨s.data.dropLast⟩ with
      | some v => .ok (v, true)
      | none => .error ("invalid value " ++ s)
    | _ => .error "invalid type: string is not a percentage"

/-- `intstr.GetScaledValueFromIntOrPercent` with `roundUp = false`: a
percentage is scaled to ⌊value·total/100⌋. -/
def GetScaledValueFromIntOrPercent (v : IntOrString) (total : Int) :
    Except String Int :=
  match getIntOrPercentValueSafely v with
  | .error e => .error ("invalid value for IntOrString: " ++ e)
  | .ok (value, isPercent) =>
    if isPercent then .ok (Int.fdiv (value * total) 100) else .ok value

/-- The fields of a MachineHealthCheck the remediation arithmetic reads:
spec.remediation.triggerIf.unhealthyLessThanOrEqualTo (maxUnhealthy),
status.expectedMachines and status.currentHealthy. -/
structure MachineHealthCheck where
  unhealthyLessThanOrEqualTo : Option IntOrString
  expectedMachines : Option Int
  currentHealthy : Option Int
deriving DecidableEq, Repr

/-- Modelled from the spec (§8 scenario): `getMaxUnhealthy` — when
maxUnhealthy is unset every unhealthy machine may be remediated (the bound is
ExpectedMachines); otherwise the int-or-percentage is scaled against
ExpectedMachines. -/
def getMaxUnhealthy (mhc : MachineHealthCheck) : Except String Int :=
  match mhc.unhealthyLessThanOrEqualTo with
  | none => .ok (mhc.expectedMachines.getD 0)
  | some v => GetScaledValueFromIntOrPercent v (mhc.expectedMachines.getD 0)

/-- `unhealthyMachineCount`: ExpectedMachines - CurrentHealthy. -/
def unhealthyMachineCount (mhc : MachineHealthCheck) : Int :=
  mhc.expectedMachines.getD 0 - mhc.currentHealthy.getD 0

/-- Modelled from the spec (§8 scenario): `isAllowedRemediation` — remediation
is allowed iff the number of unhealthy machines does not exceed the
maxUnhealthy bound; the second component is the remaining remediation budget
and the third the conversion error, if any. -/
def isAllowedRemediation (mhc : MachineHealthCheck) :
    Bool × Int × Option String :=
  match getMaxUnhealthy mhc with
  | .error e => (false, 0, some e)
  | .ok maxUnhealthy =>
    (decide (unhealthyMachineCount mhc ≤ maxUnhealthy),
      maxUnhealthy - unhealthyMachineCount mhc, none)

/-- The §8 scenario MachineHealthCheck: maxUnhealthy "40%",
ExpectedMachines 5, CurrentHealthy 2. -/
def mhc40 : MachineHealthCheck := ⟨some (.strVal "40%"), some 5, some 2⟩

/-! ### Claim C7 theorem -/

/-- C7: for maxUnhealthy "40%" with ExpectedMachines=5 and CurrentHealthy=2,
`getMaxUnhealthy` returns 2 and `isAllowedRemediation` returns false; in
general a percentage maxUnhealthy is converted to the integer bound
⌊p·ExpectedMachines/100⌋ and remediation is allowed iff the number of
unhealthy machines (ExpectedMachines - CurrentHealthy) does not exceed that
bound. -/
theorem maxUnhealthy_percentage_remediation :
    (getMaxUnhealthy mhc40 = .ok 2 ∧ (isAllowedRemediation mhc40).1 = false) ∧
    (∀ (mhc : MachineHealthCheck) (v : IntOrString) (p : Int),
      mhc.unhealthyLessThanOrEqualTo = some v →
      getIntOrPercentValueSafely v = .ok (p, true) →
      getMaxUnhealthy mhc =
        .ok (Int.fdiv (p * (mhc.expectedMachines.getD 0)) 100) ∧
      ((isAllowedRemediation mhc).1 = true ↔
        unhealthyMachineCount mhc ≤
          Int.fdiv (p * (mhc.expectedMachines.getD 0)) 100)) := by
  constructor
  · exact ⟨by rfl, by rfl⟩
  · intro mhc v p hset hparse
    have h0 : getMaxUnhealthy mhc =
        GetScaledValueFromIntOrPercent v (mhc.expectedMachines.getD 0) := by
      rw [getMaxUnhealthy, hset]
    have hmax : getMaxUnhealthy mhc =
        .ok (Int.fdiv (p * (mhc.expectedMachines.getD 0)) 100) := by
      rw [h0]
      unfold GetScaledValueFromIntOrPercent
      rw [hparse]
      simp
    refine ⟨hmax, ?_⟩
    unfold isAllowedRemediation
    rw [hmax]
    simp

/-- Witness for C7: the general percentage clause applied at the §8 scenario
itself ("40%" parses to percentage 40 and 5-2=3 > ⌊40·5/100⌋ = 2). -/
theorem maxUnhealthy_percentage_remediation_witness :
    getMaxUnhealthy mhc40 = .ok (Int.fdiv (40 * (mhc40.expectedMachines.getD 0)) 100) ∧
    ((isAllowedRemediation mhc40).1 = true ↔
      unhealthyMachineCount mhc40 ≤
        Int.fdiv (40 * (mhc40.expectedMachines.getD 0)) 100) :=
  maxUnhealthy_percentage_remediation.2 mhc40 (.strVal "40%") 40
    (by rfl) (by rfl)

/-! ## Desired state: apiVersion alignment (`alignRefAPIVersion`)

The implementation is not part of this source tree; the definition below is
modelled from the specification (§4.3 step 1, §3 ContractVersionedObjectReference)
with behavior cross-checked against the expected outputs pinned in
TestAlignRefAPIVersion. -/

/-- A template object from the ClusterClass blueprint, as the alignment reads
it: the group and version of its apiVersion and its kind. -/
structure TemplateObj where
  group : String
  version : String
  kind : String
deriving DecidableEq, Repr

/-- The template's apiVersion string. -/
def TemplateObj.apiVersion (t : TemplateObj) : String :=
  t.group ++ "/" ++ t.version

/-- A `ContractVersionedObjectReference`: group, kind and name, deliberately
carrying no apiVersion — the concrete apiVersion of the referenced object is
resolved by matching CRD contract-version labels at read/patch time. -/
structure ContractVersionedObjectReference where
  apiGroup : String
  kind : String
  name : String
deriving DecidableEq, Repr

/-- A full object reference with a concrete apiVersion. -/
structure ObjectReference where
  apiVersion : String
  kind : String
  ns : String
  name : String
deriving DecidableEq, Repr

/-- Go's `strings.TrimSuffix(kind, "Template")`: drop a trailing "Template"
when present. -/
def trimTemplateSuffix (kind : String) : String :=
  if kind.data.length ≥ 8 ∧
      kind.data.drop (kind.data.length - 8) = "Template".data then
    ⟨kind.data.take (kind.data.length - 8)⟩
  else kind

/-- Modelled from the spec (§4.3 step 1, §6 CRD contract-version label
convention) and the expected outputs pinned in TestAlignRefAPIVersion:
`alignRefAPIVersion` — if the ClusterClass template's group+kind equals the
current reference's group+kind (the template kind is compared after trimming
its "Template" suffix when the current reference is not itself a template),
the aligned reference takes the apiVersion of the ClusterClass template;
otherwise the apiVersion is resolved from the CRD contract-version labels for
the current reference's group and kind (`crdContractAPIVersion`, `none` when
the CRD cannot be found). Kind and name always come from the current
reference, the namespace from the target namespace. -/
def alignRefAPIVersion
    (crdContractAPIVersion : String → String → Option String)
    (templateFromClusterClass : TemplateObj)
    (currentRef : ContractVersionedObjectReference)
    (ns : String) (isCurrentTemplate : Bool) : Except String ObjectReference :=
  let desiredKind :=
    if isCurrentTemplate then templateFromClusterClass.kind
    else trimTemplateSuffix templateFromClusterClass.kind
  if currentRef.apiGroup = templateFromClusterClass.group ∧
      currentRef.kind = desiredKind then
    .ok { apiVersion := templateFromClusterClass.apiVersion
        , kind := currentRef.kind, ns := ns, name := currentRef.name }
  else
    match crdContractAPIVersion currentRef.apiGroup currentRef.kind with
    | some apiVersion =>
      .ok { apiVersion := apiVersion, kind := currentRef.kind, ns := ns
          , name := currentRef.name }
    | none => .error "failed to get apiVersion for CRD"

/-- The CRD contract resolution of the C1 scenario: the DockerCluster CRD
serves its contract at v1beta1, so the current object's concrete apiVersion is
"infrastructure.cluster.x-k8s.io/v1beta1". -/
def cexCRDResolve (group kind : String) : Option String :=
  if group = "infrastructure.cluster.x-k8s.io" ∧ kind = "DockerCluster" then
    some "infrastructure.cluster.x-k8s.io/v1beta1"
  else none

/-! ### Claim C1 theorems -/

/-- C1 counterexample: the ClusterClass template is at
infrastructure.cluster.x-k8s.io/v1beta2 with kind DockerClusterTemplate and
the current reference (same group, kind DockerCluster) refers to an object
whose concrete apiVersion resolves to .../v1beta1; although group+kind match
modulo the "Template" suffix, the aligned reference carries the ClusterClass
template's apiVersion .../v1beta2 and not the current object's concrete
apiVersion .../v1beta1 — contradicting the claim as stated. -/
theorem alignRefAPIVersion_counterexample :
    alignRefAPIVersion cexCRDResolve
        ⟨"infrastructure.cluster.x-k8s.io", "v1beta2", "DockerClusterTemplate"⟩
        ⟨"infrastructure.cluster.x-k8s.io", "DockerCluster", "my-cluster-abc"⟩
        "default" false =
      .ok ⟨"infrastructure.cluster.x-k8s.io/v1beta2", "DockerCluster",
        "default", "my-cluster-abc"⟩ ∧
    cexCRDResolve "infrastructure.cluster.x-k8s.io" "DockerCluster" =
      some "infrastructure.cluster.x-k8s.io/v1beta1" ∧
    ("infrastructure.cluster.x-k8s.io/v1beta2" : String) ≠
      "infrastructure.cluster.x-k8s.io/v1beta1" :=
  ⟨by rfl, by rfl, by decide⟩

/-- C1 (amended): if the desired template's group+kind exactly matches the
current reference's group+kind modulo a "Template" suffix, the resulting
reference uses the ClusterClass template's apiVersion (no CRD lookup);
otherwise the apiVersion is resolved via the CRD contract labels for the
current group and kind. -/
theorem alignRefAPIVersion_resolution
    (resolve : String → String → Option String) (tmpl : TemplateObj)
    (currentRef : ContractVersionedObjectReference) (ns : String)
    (isCurrentTemplate : Bool) :
    (currentRef.apiGroup = tmpl.group ∧
        currentRef.kind = (if isCurrentTemplate then tmpl.kind
          else trimTemplateSuffix tmpl.kind) →
      alignRefAPIVersion resolve tmpl currentRef ns isCurrentTemplate =
        .ok ⟨tmpl.apiVersion, currentRef.kind, ns, currentRef.name⟩) ∧
    (¬(currentRef.apiGroup = tmpl.group ∧
        currentRef.kind = (if isCurrentTemplate then tmpl.kind
          else trimTemplateSuffix tmpl.kind)) →
      ∀ v, resolve currentRef.apiGroup currentRef.kind = some v →
        alignRefAPIVersion resolve tmpl currentRef ns isCurrentTemplate =
          .ok ⟨v, currentRef.kind, ns, currentRef.name⟩) := by
  constructor
  · intro h
    simp only [alignRefAPIVersion]
    rw [if_pos h]
  · intro h v hv
    simp only [alignRefAPIVersion]
    rw [if_neg h, hv]

/-- Witness for C1: the amended rule applied at the two concrete test inputs —
matching group+kind (modulo suffix) keeps the template's v1beta2 apiVersion;
a non-matching kind resolves through the CRD contract labels. -/
theorem alignRefAPIVersion_resolution_witness :
    alignRefAPIVersion cexCRDResolve
        ⟨"infrastructure.cluster.x-k8s.io", "v1beta2", "DockerClusterTemplate"⟩
        ⟨"infrastructure.cluster.x-k8s.io", "DockerCluster", "my-cluster-abc"⟩
        "default" false =
      .ok ⟨"infrastructure.cluster.x-k8s.io/v1beta2", "DockerCluster",
        "default", "my-cluster-abc"⟩ ∧
    alignRefAPIVersion cexCRDResolve
        ⟨"infrastructure.cluster.x-k8s.io", "v1beta2", "OtherClusterTemplate"⟩
        ⟨"infrastructure.cluster.x-k8s.io", "DockerCluster", "my-cluster-abc"⟩
        "default" false =
      .ok ⟨"infrastructure.cluster.x-k8s.io/v1beta1", "DockerCluster",
        "default", "my-cluster-abc"⟩ :=
  ⟨(alignRefAPIVersion_resolution cexCRDResolve
      ⟨"infrastructure.cluster.x-k8s.io", "v1beta2", "DockerClusterTemplate"⟩
      ⟨"infrastructure.cluster.x-k8s.io", "DockerCluster", "my-cluster-abc"⟩
      "default" false).1 (by decide),
    (alignRefAPIVersion_resolution cexCRDResolve
      ⟨"infrastructure.cluster.x-k8s.io", "v1beta2", "OtherClusterTemplate"⟩
      ⟨"infrastructure.cluster.x-k8s.io", "DockerCluster", "my-cluster-abc"⟩
      "default" false).2 (by decide)
      "infrastructure.cluster.x-k8s.io/v1beta1" (by rfl)⟩

/-! ## Cluster controller: infrastructure / control-plane reconciliation

The phase reconciliation functions of the cluster controller are not part of
this source tree (only their tests are); the definitions below are modelled
from the specification (§4.2 steps 1-2, §4.3 steps 4-5, §7 error taxonomy)
with behavior cross-checked against TestClusterReconcileInfrastructure,
TestClusterReconcileControlPlane and
TestClusterReconcilePhases_reconcileFailureDomains. -/

/-- `clusterv1.APIEndpoint`. -/
structure APIEndpoint where
  host : String
  port : Int
deriving DecidableEq, Repr

/-- `APIEndpoint.IsZero`: empty host and zero port. -/
def APIEndpoint.isZero (e : APIEndpoint) : Bool := e.host == "" && e.port == 0

/-- A failure domain in the v1beta2 shape. -/
structure FailureDomain where
  name : String
  controlPlane : Bool
  attributes : List (String × String)
deriving DecidableEq, Repr

/-- The two serialized shapes of infrastructure failure domains: the v1beta2
contract's list of named domains, and the v1beta1 contract's map keyed by
name (entries carry controlPlane flag and attributes). -/
inductive FailureDomainsShape
  | list (l : List FailureDomain)
  | map (m : List (String × Bool × List (String × String)))
deriving DecidableEq, Repr

/-- The contract version declared by the CRD's contract-version labels. -/
inductive Contract
  | v1beta1
  | v1beta2
deriving DecidableEq, Repr

/-- The fields of the referenced InfrastructureCluster object the
reconciliation reads: whether it carries a (valid, non-zero)
deletionTimestamp, its readiness, its optional control-plane endpoint and its
failure domains in whatever shape its status uses. -/
structure InfraClusterObj where
  deleting : Bool
  ready : Bool
  controlPlaneEndpoint : Option APIEndpoint
  failureDomains : Option FailureDomainsShape
deriving DecidableEq, Repr

/-- The fields of the referenced ControlPlane object the reconciliation
reads. -/
structure ControlPlaneObj where
  deleting : Bool
  initialized : Bool
  controlPlaneEndpoint : Option APIEndpoint
deriving DecidableEq, Repr

/-- The slice of a Cluster the phase reconciliation reads and writes:
`infrastructureProvisioned`/`controlPlaneInitialized` are `Option Bool`
(unset, false, or true); `failureDomains` distinguishes nil (`none`) from an
empty list (`some []`). -/
structure ClusterObj where
  infrastructureRefDefined : Bool
  controlPlaneRefDefined : Bool
  deleting : Bool
  controlPlaneEndpoint : APIEndpoint
  infrastructureProvisioned : Option Bool
  controlPlaneInitialized : Option Bool
  failureDomains : Option (List FailureDomain)
deriving DecidableEq, Repr

/-- The reconcile result: whether a requeue after `externalReadyWait` was
requested. -/
structure ReconcileResult where
  requeueAfterExternalReadyWait : Bool
deriving DecidableEq, Repr

/-- Modelled from the spec (§4.3 step 5): read the failure domains from the
infrastructure object's status according to the declared contract version; a
shape not matching the declared contract is a hard error, and an absent field
reads as the empty list. -/
def readFailureDomains (contract : Contract)
    (shape : Option FailureDomainsShape) :
    Except String (List FailureDomain) :=
  match shape with
  | none => .ok []
  | some s =>
    match contract, s with
    | .v1beta2, .list l => .ok l
    | .v1beta2, .map _ => .error "failureDomains does not match contract v1beta2"
    | .v1beta1, .map m => .ok (m.map (fun e => ⟨e.1, e.2.1, e.2.2⟩))
    | .v1beta1, .list _ => .error "failureDomains does not match contract v1beta1"

/-- Modelled from the spec (§4.2 step 1, §4.3 steps 4-5, §7): one
reconciliation step of a Cluster's infrastructure reference against the
current infrastructure object (`none` when the Get came back NotFound).
Behavior: without a reference the infrastructure is considered provisioned;
a missing object is tolerated while the Cluster is being deleted, is a hard
error once the Cluster reported provisioned, and otherwise requests a requeue
after externalReadyWait; an object being deleted is not reconciled; otherwise
the failure domains are mirrored into the Cluster status (empty when absent),
the provisioned flag latches true when the object reports ready, and the
control-plane endpoint is copied from the object only while the Cluster's own
endpoint is still zero. -/
def reconcileInfrastructure (contract : Contract) (cluster : ClusterObj)
    (infraObj : Option InfraClusterObj) :
    Except String (ClusterObj × ReconcileResult) :=
  if !cluster.infrastructureRefDefined then
    .ok ({ cluster with infrastructureProvisioned := some true }, ⟨false⟩)
  else
    match infraObj with
    | none =>
      if cluster.deleting then .ok (cluster, ⟨false⟩)
      else if cluster.infrastructureProvisioned = some true then
        .error "failed to get infrastructure object: not found after the cluster reported provisioned"
      else .ok (cluster, ⟨true⟩)
    | some obj =>
      if obj.deleting then .ok (cluster, ⟨false⟩)
      else
        match readFailureDomains contract obj.failureDomains with
        | .error e => .error e
        | .ok fds =>
          let c1 := { cluster with failureDomains := some fds }
          let c2 :=
            if obj.ready then
              { c1 with infrastructureProvisioned := some true }
            else c1
          let c3 :=
            if c2.controlPlaneEndpoint.isZero then
              match obj.controlPlaneEndpoint with
              | some e => { c2 with controlPlaneEndpoint := e }
              | none => c2
            else c2
          .ok (c3, ⟨false⟩)

/-- Modelled from the spec (§4.2 step 2, §7): one reconciliation step of a
Cluster's control-plane reference, with the same two-tier missing-object
policy keyed on `controlPlaneInitialized` and the same latch/once-only
endpoint propagation. -/
def reconcileControlPlane (cluster : ClusterObj)
    (cpObj : Option ControlPlaneObj) :
    Except String (ClusterObj × ReconcileResult) :=
  if !cluster.controlPlaneRefDefined then .ok (cluster, ⟨false⟩)
  else
    match cpObj with
    | none =>
      if cluster.deleting then .ok (cluster, ⟨false⟩)
      else if cluster.controlPlaneInitialized = some true then
        .error "failed to get control plane object: not found after the cluster reported initialized"
      else .ok (cluster, ⟨true⟩)
    | some obj =>
      if obj.deleting then .ok (cluster, ⟨false⟩)
      else
        let c1 :=
          if obj.initialized then
            { cluster with controlPlaneInitialized := some true }
          else cluster
        let c2 :=
          if c1.controlPlaneEndpoint.isZero then
            match obj.controlPlaneEndpoint with
            | some e => { c1 with controlPlaneEndpoint := e }
            | none => c1
          else c1
        .ok (c2, ⟨false⟩)

/-! ### Claim C4 theorem -/

/-- C4: during infrastructure reconciliation of a Cluster that already
reports InfrastructureProvisioned=true, a successful reconcile never resets
the stored flag — in particular observing an infrastructure object with
ready=false leaves it true — and a non-zero controlPlaneEndpoint is never
overwritten by a different endpoint from the infrastructure object. -/
theorem infrastructure_provisioned_latches (contract : Contract)
    (cluster : ClusterObj) (infraObj : Option InfraClusterObj)
    (cluster' : ClusterObj) (res : ReconcileResult)
    (hprov : cluster.infrastructureProvisioned = some true)
    (hok : reconcileInfrastructure contract cluster infraObj =
      .ok (cluster', res)) :
    cluster'.infrastructureProvisioned = some true ∧
    (cluster.controlPlaneEndpoint.isZero = false →
      cluster'.controlPlaneEndpoint = cluster.controlPlaneEndpoint) := by
  cases hdef : cluster.infrastructureRefDefined with
  | false =>
    simp [reconcileInfrastructure, hdef] at hok
    obtain ⟨h1, h2⟩ := hok
    subst h1
    exact ⟨rfl, fun _ => rfl⟩
  | true =>
    cases infraObj with
    | none =>
      cases hdel : cluster.deleting with
      | false => simp [reconcileInfrastructure, hdef, hdel, hprov] at hok
      | true =>
        simp [reconcileInfrastructure, hdef, hdel] at hok
        obtain ⟨h1, h2⟩ := hok
        subst h1
        exact ⟨hprov, fun _ => rfl⟩
    | some obj =>
      cases hodel : obj.deleting with
      | true =>
        simp [reconcileInfrastructure, hdef, hodel] at hok
        obtain ⟨h1, h2⟩ := hok
        subst h1
        exact ⟨hprov, fun _ => rfl⟩
      | false =>
        cases hfd : readFailureDomains contract obj.failureDomains with
        | error e => simp [reconcileInfrastructure, hdef, hodel, hfd] at hok
        | ok fds =>
          cases hready : obj.ready <;>
            cases hepz : cluster.controlPlaneEndpoint.isZero <;>
              cases hep : obj.controlPlaneEndpoint <;>
                simp [reconcileInfrastructure, hdef, hodel, hfd, hready, hepz,
                  hep] at hok <;>
                obtain ⟨h1, h2⟩ := hok <;>
                subst h1 <;>
                constructor <;>
                simp [hprov, hepz]

/-- The cluster of the C4 witness: provisioned, initialized, non-zero
endpoint. -/
def cexProvCluster : ClusterObj :=
  ⟨true, true, false, ⟨"1.2.3.4", 8443⟩, some true, some true, none⟩

/-- An infrastructure object reporting ready=false with a different
endpoint. -/
def cexNotReadyInfra : InfraClusterObj :=
  ⟨false, false, some ⟨"example.com", 6443⟩, none⟩

/-- Witness for C4: feeding a ready=false infrastructure object with a
different endpoint to a provisioned Cluster leaves the flag true and the
endpoint unchanged. -/
theorem infrastructure_provisioned_latches_witness :
    ({ cexProvCluster with failureDomains := some [] } :
        ClusterObj).infrastructureProvisioned = some true ∧
    (cexProvCluster.controlPlaneEndpoint.isZero = false →
      ({ cexProvCluster with failureDomains := some [] } :
          ClusterObj).controlPlaneEndpoint = cexProvCluster.controlPlaneEndpoint) :=
  infrastructure_provisioned_latches .v1beta2 cexProvCluster
    (some cexNotReadyInfra) { cexProvCluster with failureDomains := some [] }
    ⟨false⟩ (by rfl) (by rfl)

/-! ### Claim C5 theorem -/

/-- C5: when the referenced infrastructure object (not being deleted) reports
no failure domains in its status, reconciliation sets the Cluster's
failureDomains to `some []` — an empty list, not nil and not the previously
stored value. -/
theorem failureDomains_reset_to_empty (contract : Contract)
    (cluster : ClusterObj) (obj : InfraClusterObj)
    (href : cluster.infrastructureRefDefined = true)
    (hdel : obj.deleting = false)
    (hfd : obj.failureDomains = none) :
    ∃ p, reconcileInfrastructure contract cluster (some obj) = .ok p ∧
      p.1.failureDomains = some [] := by
  have hread : readFailureDomains contract obj.failureDomains = .ok [] := by
    rw [hfd, readFailureDomains]
  cases hready : obj.ready <;>
    cases hepz : cluster.controlPlaneEndpoint.isZero <;>
      cases hep : obj.controlPlaneEndpoint <;>
        simp [reconcileInfrastructure, href, hdel, hread, hready, hepz, hep]

/-- The cluster of the C5 witness: carries a stale non-empty failure-domain
list. -/
def cexStaleFDCluster : ClusterObj :=
  ⟨true, true, false, ⟨"1.2.3.4", 8443⟩, some true, none,
    some [⟨"olddomain", false, [("attribute1", "value1")]⟩]⟩

/-- An infrastructure object whose status carries no failure domains. -/
def cexNoFDInfra : InfraClusterObj := ⟨false, true, none, none⟩

/-- Witness for C5: reconciling the stale Cluster against an infrastructure
object without failure domains yields `some []`. -/
theorem failureDomains_reset_to_empty_witness :
    ∃ p, reconcileInfrastructure .v1beta2 cexStaleFDCluster
        (some cexNoFDInfra) = .ok p ∧ p.1.failureDomains = some [] :=
  failureDomains_reset_to_empty .v1beta2 cexStaleFDCluster cexNoFDInfra
    (by rfl) (by rfl) (by rfl)

/-! ### Claim C6 theorems -/

/-- C6 (amended): when the infrastructure (or control-plane) reference is
present but the target object cannot be found: for a Cluster that is not
being deleted — if the corresponding provisioned/initialized flag was never
reported true, reconciliation returns no error and requests a requeue after
externalReadyWait; if it was reported true, reconciliation returns a hard
error; for a Cluster being deleted the missing object is tolerated with no
error and no requeue. -/
theorem missing_target_two_tier (contract : Contract) (cluster : ClusterObj)
    (hrefInfra : cluster.infrastructureRefDefined = true)
    (hrefCP : cluster.controlPlaneRefDefined = true) :
    (cluster.deleting = false → cluster.infrastructureProvisioned ≠ some true →
      reconcileInfrastructure contract cluster none = .ok (cluster, ⟨true⟩)) ∧
    (cluster.deleting = false → cluster.infrastructureProvisioned = some true →
      ∃ e, reconcileInfrastructure contract cluster none = .error e) ∧
    (cluster.deleting = true →
      reconcileInfrastructure contract cluster none = .ok (cluster, ⟨false⟩)) ∧
    (cluster.deleting = false → cluster.controlPlaneInitialized ≠ some true →
      reconcileControlPlane cluster none = .ok (cluster, ⟨true⟩)) ∧
    (cluster.deleting = false → cluster.controlPlaneInitialized = some true →
      ∃ e, reconcileControlPlane cluster none = .error e) ∧
    (cluster.deleting = true →
      reconcileControlPlane cluster none = .ok (cluster, ⟨false⟩)) := by
  refine ⟨?_, ?_, ?_, ?_, ?_, ?_⟩
  · intro hdel hprov
    simp [reconcileInfrastructure, hrefInfra, hdel, hprov]
  · intro hdel hprov
    simp [reconcileInfrastructure, hrefInfra, hdel, hprov]
  · intro hdel
    simp [reconcileInfrastructure, hrefInfra, hdel]
  · intro hdel hinit
    simp [reconcileControlPlane, hrefCP, hdel, hinit]
  · intro hdel hinit
    simp [reconcileControlPlane, hrefCP, hdel, hinit]
  · intro hdel
    simp [reconcileControlPlane, hrefCP, hdel]

/-- A Cluster being deleted that had reported both flags true. -/
def cexDeletingCluster : ClusterObj :=
  ⟨true, true, true, ⟨"1.2.3.4", 8443⟩, some true, some true, none⟩

/-- C6 counterexample: a Cluster with a defined infrastructure reference that
previously reported InfrastructureProvisioned=true, but which is being
deleted, reconciles a missing infrastructure object WITHOUT an error (and
without a requeue) — contradicting the claim as stated, which demands a hard
error whenever the Cluster had previously reported ready. -/
theorem missing_target_deleting_counterexample :
    cexDeletingCluster.infrastructureRefDefined = true ∧
    cexDeletingCluster.infrastructureProvisioned = some true ∧
    reconcileInfrastructure .v1beta2 cexDeletingCluster none =
      .ok (cexDeletingCluster, ⟨false⟩) :=
  ⟨rfl, rfl, rfl⟩

/-- A Cluster that never reported infrastructure provisioned. -/
def cexFreshCluster : ClusterObj :=
  ⟨true, true, false, ⟨"", 0⟩, some false, none, none⟩

/-- A Cluster (not deleting) that reported both flags true. -/
def cexReadyCluster : ClusterObj :=
  ⟨true, true, false, ⟨"1.2.3.4", 8443⟩, some true, some true, none⟩

/-- Witness for C6: never-provisioned Cluster requeues without error; a
previously-provisioned Cluster errors hard; a deleting Cluster tolerates a
missing control plane. -/
theorem missing_target_two_tier_witness :
    reconcileInfrastructure .v1beta2 cexFreshCluster none =
      .ok (cexFreshCluster, ⟨true⟩) ∧
    (∃ e, reconcileInfrastructure .v1beta2 cexReadyCluster none = .error e) ∧
    reconcileControlPlane cexDeletingCluster none =
      .ok (cexDeletingCluster, ⟨false⟩) :=
  ⟨(missing_target_two_tier .v1beta2 cexFreshCluster rfl rfl).1 rfl
      (by simp [cexFreshCluster]),
    (missing_target_two_tier .v1beta2 cexReadyCluster rfl rfl).2.1 rfl rfl,
    (missing_target_two_tier .v1beta2 cexDeletingCluster rfl rfl).2.2.2.2.2 rfl⟩

/-! ## Current state reader: MachineDeployment/MachinePool listing

The topology current-state reader is not part of this source tree (only its
tests are); the definitions below are modelled from the specification
(§4.2 step 4, §6 label conventions) with behavior cross-checked against the
expected outcomes pinned in TestGetCurrentState. -/

/-- `cluster.x-k8s.io/cluster-name`. -/
def clusterNameLabel : String := "cluster.x-k8s.io/cluster-name"

/-- `topology.cluster.x-k8s.io/owned`. -/
def topologyOwnedLabel : String := "topology.cluster.x-k8s.io/owned"

/-- `topology.cluster.x-k8s.io/deployment-name`. -/
def topologyMachineDeploymentNameLabel : String :=
  "topology.cluster.x-k8s.io/deployment-name"

/-- `topology.cluster.x-k8s.io/pool-name`. -/
def topologyMachinePoolNameLabel : String :=
  "topology.cluster.x-k8s.io/pool-name"

/-- The parts of a live MachineDeployment/MachinePool the reader inspects. -/
structure WorkerObj where
  name : String
  labels : List (String × String)
deriving DecidableEq, Repr

/-- The label selector of the List call: the object carries this Cluster's
name under `cluster.x-k8s.io/cluster-name` and carries the
`topology.cluster.x-k8s.io/owned` label (any value). -/
def isTopologyOwnedFor (clusterName : String) (o : WorkerObj) : Bool :=
  (o.labels.lookup clusterNameLabel == some clusterName) &&
  (o.labels.lookup topologyOwnedLabel).isSome

/-- The value of the per-kind topology name label on one object. -/
def topologyNameOf (nameLabel : String) (o : WorkerObj) : Option String :=
  o.labels.lookup nameLabel

/-- Modelled from the spec (§4.2 step 4): add one selected object to the
accumulated topology-name → object map: a selected object missing the
topology name label (or carrying an empty value) is a hard error; a topology
name already taken by another object is a hard error (ambiguous ownership). -/
def addWorkerObj (nameLabel : String)
    (acc : Except String (List (String × WorkerObj))) (o : WorkerObj) :
    Except String (List (String × WorkerObj)) :=
  match acc with
  | .error e => .error e
  | .ok m =>
    match topologyNameOf nameLabel o with
    | none => .error ("missing label " ++ nameLabel ++ " on " ++ o.name)
    | some n =>
      if n = "" then .error ("missing label " ++ nameLabel ++ " on " ++ o.name)
      else if (m.lookup n).isSome then
        .error ("duplicate objects found for topology name " ++ n)
      else .ok (m ++ [(n, o)])

/-- Modelled from the spec (§4.2 step 4): collect the Cluster's current
MachineDeployments or MachinePools into a map keyed by their unique topology
name label; objects not matching the label selector are silently excluded. -/
def getCurrentWorkerObjs (nameLabel clusterName : String)
    (objs : List WorkerObj) : Except String (List (String × WorkerObj)) :=
  (objs.filter (isTopologyOwnedFor clusterName)).foldl (addWorkerObj nameLabel)
    (.ok [])

/-- The MachineDeployment instance of the reader. -/
def getCurrentMachineDeployments (clusterName : String)
    (objs : List WorkerObj) : Except String (List (String × WorkerObj)) :=
  getCurrentWorkerObjs topologyMachineDeploymentNameLabel clusterName objs

/-- The MachinePool instance of the reader. -/
def getCurrentMachinePools (clusterName : String) (objs : List WorkerObj) :
    Except String (List (String × WorkerObj)) :=
  getCurrentWorkerObjs topologyMachinePoolNameLabel clusterName objs

/-! ### Lemmas about the current state reader -/

theorem lookupG_eq_none_of_not_mem_fst {β : Type} {l : List (String × β)}
    {k : String} (h : k ∉ l.map Prod.fst) : l.lookup k = none := by
  induction l with
  | nil => rfl
  | cons p t ih =>
    obtain ⟨a, b⟩ := p
    simp only [List.map_cons, List.mem_cons] at h
    push_neg at h
    have hbeq : (k == a) = false := by simpa using h.1
    simp only [List.lookup, hbeq]
    exact ih h.2

theorem lookupG_isSome_of_mem_fst {β : Type} {l : List (String × β)}
    {k : String} (h : k ∈ l.map Prod.fst) : (l.lookup k).isSome := by
  induction l with
  | nil => simp at h
  | cons p t ih =>
    obtain ⟨a, b⟩ := p
    simp only [List.map_cons, List.mem_cons] at h
    by_cases hk : k = a
    · simp [List.lookup, hk]
    · have hbeq : (k == a) = false := by simpa using hk
      simp only [List.lookup, hbeq]
      exact ih (h.resolve_left hk)

theorem foldl_addWorkerObj_error (nameLabel : String) (e : String)
    (l : List WorkerObj) :
    l.foldl (addWorkerObj nameLabel) (.error e) = .error e := by
  induction l with
  | nil => rfl
  | cons o t ih =>
    rw [List.foldl_cons]
    exact ih

theorem foldl_addWorkerObj_ok {nameLabel : String} {l : List WorkerObj}
    {acc m : List (String × WorkerObj)}
    (h : l.foldl (addWorkerObj nameLabel) (.ok acc) = .ok m) :
    (∀ o ∈ l, ∃ n, topologyNameOf nameLabel o = some n ∧ n ≠ "" ∧
      n ∉ acc.map Prod.fst) ∧
    List.Pairwise (fun o1 o2 =>
      topologyNameOf nameLabel o1 ≠ topologyNameOf nameLabel o2) l := by
  induction l generalizing acc with
  | nil => exact ⟨by simp, List.Pairwise.nil⟩
  | cons o t ih =>
    rw [List.foldl_cons] at h
    cases hname : topologyNameOf nameLabel o with
    | none =>
      simp only [addWorkerObj, hname] at h
      rw [foldl_addWorkerObj_error] at h
      simp at h
    | some n =>
      by_cases hne : n = ""
      · simp only [addWorkerObj, hname] at h
        rw [if_pos hne] at h
        rw [foldl_addWorkerObj_error] at h
        simp at h
      · by_cases hdup : (acc.lookup n).isSome
        · simp only [addWorkerObj, hname] at h
          rw [if_neg hne, if_pos hdup] at h
          rw [foldl_addWorkerObj_error] at h
          simp at h
        · simp only [addWorkerObj, hname] at h
          rw [if_neg hne, if_neg hdup] at h
          obtain ⟨h1, h2⟩ := ih h
          constructor
          · intro o' ho'
            rcases List.mem_cons.1 ho' with rfl | ho'
            · exact ⟨n, hname, hne,
                fun hmem => hdup (lookupG_isSome_of_mem_fst hmem)⟩
            · obtain ⟨n', hn', hne', hnotin⟩ := h1 o' ho'
              refine ⟨n', hn', hne', fun hmem => hnotin ?_⟩
              rw [List.map_append, List.mem_append]
              exact Or.inl hmem
          · refine List.Pairwise.cons ?_ h2
            intro o' ho'
            obtain ⟨n', hn', hne', hnotin⟩ := h1 o' ho'
            rw [hname, hn']
            intro hcontra
            obtain rfl := Option.some.inj hcontra
            apply hnotin
            rw [List.map_append, List.mem_append]
            exact Or.inr (by simp)

/-! ### Claim C8 theorem -/

/-- C8: when listing the Cluster's MachineDeployments/MachinePools, an object
lacking the topology-owned label or labeled with a different cluster name is
silently excluded from the current state; a selected object missing the
topology deployment-name/pool-name label is a hard error; and two distinct
selected objects carrying the same topology name label value are a hard
error. -/
theorem current_state_worker_listing :
    (∀ (nameLabel clusterName : String) (objs : List WorkerObj)
        (o : WorkerObj),
      isTopologyOwnedFor clusterName o = false →
      getCurrentWorkerObjs nameLabel clusterName (o :: objs) =
        getCurrentWorkerObjs nameLabel clusterName objs) ∧
    (∀ (nameLabel clusterName : String) (objs : List WorkerObj)
        (o : WorkerObj),
      o ∈ objs → isTopologyOwnedFor clusterName o = true →
      topologyNameOf nameLabel o = none →
      ∃ e, getCurrentWorkerObjs nameLabel clusterName objs = .error e) ∧
    (∀ (nameLabel clusterName : String) (objs : List WorkerObj)
        (o1 o2 : WorkerObj),
      o1 ∈ objs → o2 ∈ objs → o1 ≠ o2 →
      isTopologyOwnedFor clusterName o1 = true →
      isTopologyOwnedFor clusterName o2 = true →
      topologyNameOf nameLabel o1 = topologyNameOf nameLabel o2 →
      ∃ e, getCurrentWorkerObjs nameLabel clusterName objs = .error e) := by
  refine ⟨?_, ?_, ?_⟩
  · intro nameLabel clusterName objs o hsel
    rw [getCurrentWorkerObjs, getCurrentWorkerObjs, List.filter_cons]
    rw [hsel]
    rfl
  · intro nameLabel clusterName objs o ho hsel hnone
    cases hres : getCurrentWorkerObjs nameLabel clusterName objs with
    | error e => exact ⟨e, rfl⟩
    | ok m =>
      exfalso
      rw [getCurrentWorkerObjs] at hres
      obtain ⟨n, hn, -, -⟩ := (foldl_addWorkerObj_ok hres).1 o
        (List.mem_filter.2 ⟨ho, hsel⟩)
      rw [hnone] at hn
      cases hn
  · intro nameLabel clusterName objs o1 o2 ho1 ho2 hne hsel1 hsel2 heq
    cases hres : getCurrentWorkerObjs nameLabel clusterName objs with
    | error e => exact ⟨e, rfl⟩
    | ok m =>
      exfalso
      rw [getCurrentWorkerObjs] at hres
      have hpw := (foldl_addWorkerObj_ok hres).2
      have hsym : Symmetric (fun o1 o2 : WorkerObj =>
          topologyNameOf nameLabel o1 ≠ topologyNameOf nameLabel o2) :=
        fun _ _ hxy h => hxy h.symm
      exact hpw.forall hsym (List.mem_filter.2 ⟨ho1, hsel1⟩)
        (List.mem_filter.2 ⟨ho2, hsel2⟩) hne heq

/-- A MachineDeployment correctly labeled for "cluster1" with topology name
"md1". -/
def cexMD1 : WorkerObj :=
  ⟨"md1", [(clusterNameLabel, "cluster1"), (topologyOwnedLabel, ""),
    (topologyMachineDeploymentNameLabel, "md1")]⟩

/-- Another MachineDeployment carrying the same labels as `cexMD1`. -/
def cexMDdup : WorkerObj :=
  ⟨"duplicate-labels", [(clusterNameLabel, "cluster1"),
    (topologyOwnedLabel, ""), (topologyMachineDeploymentNameLabel, "md1")]⟩

/-- A topology-owned MachineDeployment missing the deployment-name label. -/
def cexMDmissingName : WorkerObj :=
  ⟨"missing-topology-md-labelName",
    [(clusterNameLabel, "cluster1"), (topologyOwnedLabel, "")]⟩

/-- A MachineDeployment without the topology-owned label (unmanaged). -/
def cexMDunmanaged : WorkerObj :=
  ⟨"no-managed-label", [(clusterNameLabel, "cluster1")]⟩

/-- Witness for C8 at the TestGetCurrentState scenarios: the unmanaged object
is silently excluded; a missing deployment-name label errors; two objects
with the same deployment-name label error. -/
theorem current_state_worker_listing_witness :
    getCurrentMachineDeployments "cluster1" (cexMDunmanaged :: [cexMD1]) =
      getCurrentMachineDeployments "cluster1" [cexMD1] ∧
    (∃ e, getCurrentMachineDeployments "cluster1" [cexMDmissingName] =
      .error e) ∧
    (∃ e, getCurrentMachineDeployments "cluster1" [cexMD1, cexMDdup] =
      .error e) :=
  ⟨current_state_worker_listing.1 topologyMachineDeploymentNameLabel "cluster1"
      [cexMD1] cexMDunmanaged (by decide),
    current_state_worker_listing.2.1 topologyMachineDeploymentNameLabel
      "cluster1" [cexMDmissingName] cexMDmissingName (by decide) (by decide)
      (by decide),
    current_state_worker_listing.2.2 topologyMachineDeploymentNameLabel
      "cluster1" [cexMD1, cexMDdup] cexMD1 cexMDdup (by decide) (by decide)
      (by decide) (by decide) (by decide) (by decide)⟩
